import Mathlib

/-!
Shallow embedding of the chat round-trip engine of `ai_team_client.py`
(class `AITeamClient`), for checking the specification of the
asynchronous chat round trip.

The remote HTTP service is modelled as an oracle (`Service`) giving the
HTTP status and parsed JSON payload of each call; the thread fetch is
indexed by the number of prior thread-fetch calls in the session, which
models the remote thread state evolving between polls.  Wall-clock time
is idealised the way the specification itself idealises it: each loop
iteration advances time by exactly `poll_interval` (the sleep), so the
elapsed time tested by the `while` guard after `k` sleeps is
`k * poll_interval`.
-/

/-- A part of a message.  The client reads only `part.get("type")` and
`part.get("text", "")`; any other fields (tool names, tool results) are
never inspected by the extraction step, so they are not represented. -/
structure MsgPart where
  ptype : Option String
  text : Option String
deriving DecidableEq

/-- A chat message: the client reads `msg.get("role")` and
`msg.get("parts", [])`; a missing parts key is modelled as `[]`. -/
structure Message where
  role : Option String
  parts : List MsgPart
deriving DecidableEq

/-- The inline message page of a thread fetch; its data field mirrors
the lookup `.get("data", [])`. -/
structure MessagePage where
  data : Option (List Message)
deriving DecidableEq

/-- Thread representation returned by a thread fetch; the optional
fields mirror the `.get` defaults used in `send_message_and_wait`:
`state` via `.get("state", ...)`, `messageCount` via
`.get("messageCount", 0)`, `messages` via `.get("messages", ...)`. -/
structure ThreadData where
  state : Option String
  messageCount : Option Int
  messages : Option MessagePage
deriving DecidableEq

/-- The messages embedded in a thread fetch:
`thread_data.get("messages", empty dict).get("data", [])`. -/
def ThreadData.embeddedMessages (td : ThreadData) : List Message :=
  ((td.messages.getD ⟨none⟩).data).getD []

/-- The fields of the thread-creation response that the client reads:
`thread["id"]` and `thread["state"]`. -/
structure ThreadInfo where
  id : String
  tstate : String
deriving DecidableEq

/-- Transport-level faults: a connection failure raised by `requests`
itself, or the HTTPError that `raise_for_status` raises on a 4xx/5xx
response. -/
inductive Fault where
  | connection : Fault
  | httpStatus : Nat → Fault
deriving DecidableEq

/-- An HTTP response: status code plus parsed JSON payload. -/
structure HttpResponse (α : Type) where
  status : Nat
  body : α
deriving DecidableEq

/-- Model of `requests.Response.raise_for_status`: raises `HTTPError`
for 4xx and 5xx status codes, otherwise returns the response. -/
def raise_for_status {α : Type} (r : HttpResponse α) : Except Fault (HttpResponse α) :=
  if 400 ≤ r.status ∧ r.status < 600 then .error (.httpStatus r.status) else .ok r

/-- Oracle for the remote service during one round trip.  Fields, in
order: the response to the thread-creation POST (channel id, message);
the response to the n-th thread-fetch GET of the session (channel id,
thread id, n); the response to the dedicated messages-listing GET
(channel id, thread id).  An `Except.error` models a connection failure
of the request itself; a returned response may carry any HTTP status. -/
structure Service where
  postThread : String → String → Except Fault (HttpResponse ThreadInfo)
  getThreadResp : String → String → Nat → Except Fault (HttpResponse ThreadData)
  getMessagesResp : String → String → Except Fault (HttpResponse (List Message))

/-- `AITeamClient.create_thread`: POST the payload, `raise_for_status`,
then unwrap the data envelope of the JSON body. -/
def create_thread (svc : Service) (channel_id message : String) :
    Except Fault ThreadInfo :=
  match svc.postThread channel_id message with
  | .error e => .error e
  | .ok r =>
    match raise_for_status r with
    | .error e => .error e
    | .ok r => .ok r.body

/-- `AITeamClient.get_thread`: GET the thread (the call index `n` says
this is the n-th thread fetch of the session), `raise_for_status`, then
unwrap the data envelope. -/
def get_thread (svc : Service) (channel_id thread_id : String) (n : Nat) :
    Except Fault ThreadData :=
  match svc.getThreadResp channel_id thread_id n with
  | .error e => .error e
  | .ok r =>
    match raise_for_status r with
    | .error e => .error e
    | .ok r => .ok r.body

/-- `AITeamClient.get_thread_messages`: GET the messages sub-resource,
`raise_for_status`, then unwrap the data envelope. -/
def get_thread_messages (svc : Service) (channel_id thread_id : String) :
    Except Fault (List Message) :=
  match svc.getMessagesResp channel_id thread_id with
  | .error e => .error e
  | .ok r =>
    match raise_for_status r with
    | .error e => .error e
    | .ok r => .ok r.body

/-- `AITeamClient.delete_agent`: issues the DELETE and, without calling
`raise_for_status`, returns whether the status code is 200 or 204.  The
argument is the transport outcome of the DELETE request. -/
def delete_agent (resp : Except Fault (HttpResponse Unit)) : Except Fault Bool :=
  match resp with
  | .error e => .error e
  | .ok r => .ok (r.status == 200 || r.status == 204)

/-- `AITeamClient.mark_thread_read`: issues the POST and discards the
response entirely, never calling `raise_for_status`.  The argument is
the transport outcome of the POST request. -/
def mark_thread_read (resp : Except Fault (HttpResponse Unit)) : Except Fault Unit :=
  match resp with
  | .error e => .error e
  | .ok _ => .ok ()

/-- The terminal condition tested inside the poll loop:
state in ("resolved", "done") or msg_count >= 2, where the local
variable state is `thread_data.get("state", "unknown")` and msg_count
is `thread_data.get("messageCount", 0)`. -/
def terminalState (td : ThreadData) : Prop :=
  td.state.getD "unknown" = "resolved" ∨ td.state.getD "unknown" = "done"
    ∨ 2 ≤ td.messageCount.getD 0

instance (td : ThreadData) : Decidable (terminalState td) :=
  inferInstanceAs (Decidable (_ ∨ _ ∨ _))

/-- The result dict of `send_message_and_wait`: keys thread, messages,
state. -/
structure WaitResult where
  thread : ThreadData
  messages : List Message
  rstate : String
deriving DecidableEq

/-- The `while time.time() - start < timeout` loop of
`send_message_and_wait`, entered with `k` completed sleeps behind it
(elapsed time `k * interval`), plus the code after the loop.  In the
loop body: sleep, fetch the thread (the k-th fetch), test the terminal
condition; when terminal, prefer the embedded message page and fall
back to the dedicated messages call only when that page is empty, and
return the result dict with the state local (default "unknown").  When
the guard fails, do one final thread fetch and return its embedded
messages with `thread_data.get("state", "timeout")`. -/
def pollLoop (svc : Service) (channel_id thread_id : String)
    (timeout interval : Int) (h : 0 < interval) (k : Nat) :
    Except Fault WaitResult :=
  if hk : (k : Int) * interval < timeout then
    match get_thread svc channel_id thread_id k with
    | .error e => .error e
    | .ok thread_data =>
      if terminalState thread_data then
        if thread_data.embeddedMessages.isEmpty then
          match get_thread_messages svc channel_id thread_id with
          | .error e => .error e
          | .ok ms => .ok ⟨thread_data, ms, thread_data.state.getD "unknown"⟩
        else
          .ok ⟨thread_data, thread_data.embeddedMessages, thread_data.state.getD "unknown"⟩
      else
        pollLoop svc channel_id thread_id timeout interval h (k + 1)
  else
    match get_thread svc channel_id thread_id k with
    | .error e => .error e
    | .ok thread_data =>
      .ok ⟨thread_data, thread_data.embeddedMessages, thread_data.state.getD "timeout"⟩
termination_by (timeout - (k : Int) * interval).toNat
decreasing_by
  have e : ((k + 1 : Nat) : Int) * interval = (k : Int) * interval + interval := by
    push_cast
    ring
  rw [e]
  generalize hX : (k : Int) * interval = X at hk ⊢
  omega

/-- `AITeamClient.send_message_and_wait`: create the thread on the
channel, then run the poll loop from zero elapsed time. -/
def send_message_and_wait (svc : Service) (channel_id message : String)
    (timeout interval : Int) (h : 0 < interval) : Except Fault WaitResult :=
  match create_thread svc channel_id message with
  | .error e => .error e
  | .ok thread => pollLoop svc channel_id thread.id timeout interval h 0

/-- The thread-fetch index at which the poll loop gives up when no poll
is ever terminal: the least `n ≥ k` with `n * interval ≥ timeout`.
Starting from `k = 0` this is both the number of loop iterations (and
sleeps) executed and the index of the final post-loop fetch. -/
def finalIdx (timeout interval : Int) (h : 0 < interval) (k : Nat) : Nat :=
  if hk : (k : Int) * interval < timeout then finalIdx timeout interval h (k + 1)
  else k
termination_by (timeout - (k : Int) * interval).toNat
decreasing_by
  have e : ((k + 1 : Nat) : Int) * interval = (k : Int) * interval + interval := by
    push_cast
    ring
  rw [e]
  generalize hX : (k : Int) * interval = X at hk ⊢
  omega

/-- The text parts collected from one message by the extraction loop in
`chat`: for each part whose type is "text", the value
`part.get("text", "")`, in part order. -/
def message_text_parts (msg : Message) : List String :=
  (msg.parts.filter fun p => p.ptype = some "text").map fun p => p.text.getD ""

/-- The scan over messages in `chat`: the first message whose role is
"agent" and whose collected text parts are non-empty yields those parts
joined with a newline; an agent message with no text parts is passed
over, as is any non-agent message. -/
def extractFirstText : List Message → Option String
  | [] => none
  | msg :: rest =>
    if msg.role = some "agent" then
      if (message_text_parts msg).isEmpty then extractFirstText rest
      else some (String.intercalate "\n" (message_text_parts msg))
    else extractFirstText rest

/-- The response-extraction step of `chat` applied to the result dict
of `send_message_and_wait`: the first agent text reply when one exists,
otherwise the sentinel string embedding the result state. -/
def extract_text (result : WaitResult) : String :=
  match extractFirstText result.messages with
  | some s => s
  | none => "[No response yet - state: " ++ result.rstate ++ "]"

/-- State-passing form of the extraction step: Python evaluation
threads the result dict through the extraction code, which only ever
reads it, so the dict comes back unchanged alongside the string. -/
def extract_step (result : WaitResult) : String × WaitResult :=
  (extract_text result, result)

/-- A proof that the default poll interval of 5 is positive, used where
`chat` leaves `poll_interval` at its default. -/
def five_pos : (0 : Int) < 5 := by norm_num

/-- A proof that a poll interval of 3 is positive, used by a witness. -/
def intervalPos3 : (0 : Int) < 3 := by norm_num

/-- `AITeamClient.chat`: derive the channel id by prefixing "dm-" to
the agent id, run the round trip with the default poll interval of 5,
and apply the extraction step to the result. -/
def chat (svc : Service) (agent_id message : String) (timeout : Int) :
    Except Fault String :=
  (send_message_and_wait svc ("dm-" ++ agent_id) message timeout 5 five_pos).map
    extract_text

/-- Creation response used by the concrete example services. -/
def infoNew : ThreadInfo := ⟨"thread-1", "investigating"⟩

/-- A user message with one text part "ping". -/
def msgPing : Message := ⟨some "user", [⟨some "text", some "ping"⟩]⟩

/-- An agent message with one text part "pong". -/
def msgPong : Message := ⟨some "agent", [⟨some "text", some "pong"⟩]⟩

/-- An agent message consisting solely of a tool-invocation part. -/
def msgToolOnly : Message := ⟨some "agent", [⟨some "tool-invocation", none⟩]⟩

/-- An agent message mixing text parts with a tool-result part. -/
def msgMixed : Message :=
  ⟨some "agent",
    [⟨some "text", some "pong"⟩, ⟨some "tool-result", none⟩, ⟨some "text", some "ok"⟩]⟩

/-- A thread fetch that is terminal on its state and message count and
carries a non-empty embedded page. -/
def tdDone : ThreadData := ⟨some "done", some 2, some ⟨some [msgPing, msgPong]⟩⟩

/-- A non-terminal thread fetch: state "investigating", one message,
with the initiating message in the embedded page. -/
def tdInvestigating : ThreadData :=
  ⟨some "investigating", some 1, some ⟨some [msgPing]⟩⟩

/-- A terminal thread fetch whose embedded page is absent. -/
def tdDoneNoPage : ThreadData := ⟨some "done", some 2, none⟩

/-- A service already terminal at the very first poll. -/
def svcFast : Service :=
  ⟨fun _ _ => .ok ⟨200, infoNew⟩, fun _ _ _ => .ok ⟨200, tdDone⟩,
    fun _ _ => .ok ⟨200, []⟩⟩

/-- A service never advancing past state "investigating" with one
message; its dedicated messages-listing endpoint always fails, which
lets theorems observe that the timeout path never calls it. -/
def svcStuck : Service :=
  ⟨fun _ _ => .ok ⟨200, infoNew⟩, fun _ _ _ => .ok ⟨200, tdInvestigating⟩,
    fun _ _ => .error .connection⟩

/-- A service terminal at the first poll but with no embedded page, so
the success path must fall back to the messages-listing call. -/
def svcEmptyPage : Service :=
  ⟨fun _ _ => .ok ⟨200, infoNew⟩, fun _ _ _ => .ok ⟨200, tdDoneNoPage⟩,
    fun _ _ => .ok ⟨200, [msgPong]⟩⟩

/-- A service whose thread fetch always fails with a connection error
(the creation call succeeds). -/
def svcPollFail : Service :=
  ⟨fun _ _ => .ok ⟨200, infoNew⟩, fun _ _ _ => .error .connection,
    fun _ _ => .ok ⟨200, []⟩⟩

/-- A poll outcome is a successful response whose payload satisfies the
predicate.  Stated as a match so that it is decidable for concrete
services, unlike an existential. -/
def okAnd {α : Type} (e : Except Fault α) (P : α → Prop) : Prop :=
  match e with
  | .ok a => P a
  | .error _ => False

instance {α : Type} (e : Except Fault α) (P : α → Prop) [inst : ∀ a, Decidable (P a)] :
    Decidable (okAnd e P) :=
  match e with
  | .ok a => inst a
  | .error _ => isFalse fun hf => hf

lemma okAnd_ok {α : Type} {e : Except Fault α} {P : α → Prop} (h : okAnd e P) :
    ∃ a, e = .ok a ∧ P a := by
  cases e with
  | ok a => exact ⟨a, rfl, h⟩
  | error _ => exact absurd h (fun hf => hf)

lemma pollLoop_guard_true (svc : Service) (ch tid : String) (t i : Int)
    (h : 0 < i) (k : Nat) (hk : (k : Int) * i < t) :
    pollLoop svc ch tid t i h k =
      match get_thread svc ch tid k with
      | .error e => .error e
      | .ok td =>
        if terminalState td then
          if td.embeddedMessages.isEmpty then
            match get_thread_messages svc ch tid with
            | .error e => .error e
            | .ok ms => .ok ⟨td, ms, td.state.getD "unknown"⟩
          else .ok ⟨td, td.embeddedMessages, td.state.getD "unknown"⟩
        else pollLoop svc ch tid t i h (k + 1) := by
  conv_lhs => rw [pollLoop]
  rw [dif_pos hk]

lemma pollLoop_guard_false (svc : Service) (ch tid : String) (t i : Int)
    (h : 0 < i) (k : Nat) (hk : ¬ ((k : Int) * i < t)) :
    pollLoop svc ch tid t i h k =
      match get_thread svc ch tid k with
      | .error e => .error e
      | .ok td => .ok ⟨td, td.embeddedMessages, td.state.getD "timeout"⟩ := by
  conv_lhs => rw [pollLoop]
  rw [dif_neg hk]

lemma pollLoop_step (svc : Service) (ch tid : String) (t i : Int)
    (h : 0 < i) (k : Nat) (td : ThreadData) (hk : (k : Int) * i < t)
    (hok : get_thread svc ch tid k = .ok td) (hnt : ¬ terminalState td) :
    pollLoop svc ch tid t i h k = pollLoop svc ch tid t i h (k + 1) := by
  rw [pollLoop_guard_true svc ch tid t i h k hk]
  simp only [hok, if_neg hnt]

lemma finalIdx_guard_true (t i : Int) (h : 0 < i) (k : Nat)
    (hk : (k : Int) * i < t) : finalIdx t i h k = finalIdx t i h (k + 1) := by
  conv_lhs => rw [finalIdx]
  rw [dif_pos hk]

lemma finalIdx_guard_false (t i : Int) (h : 0 < i) (k : Nat)
    (hk : ¬ ((k : Int) * i < t)) : finalIdx t i h k = k := by
  conv_lhs => rw [finalIdx]
  rw [dif_neg hk]

/-- When every poll strictly before `k` answered successfully with a
non-terminal thread, and poll `k` still lies inside the timeout window,
the loop reaches poll `k` unchanged. -/
lemma pollLoop_reach (svc : Service) (ch tid : String) (t i : Int)
    (h : 0 < i) :
    ∀ k : Nat,
      (∀ j, j < k → okAnd (get_thread svc ch tid j) fun td => ¬ terminalState td) →
      (k : Int) * i < t →
      pollLoop svc ch tid t i h 0 = pollLoop svc ch tid t i h k := by
  intro k
  induction k with
  | zero => intro _ _; rfl
  | succ k ih =>
    intro hbefore hk
    have hki : (k : Int) * i < t := by
      have hlt : (k : Int) * i < ((k + 1 : Nat) : Int) * i := by
        have e : ((k + 1 : Nat) : Int) * i = (k : Int) * i + i := by
          push_cast
          ring
        rw [e]
        omega
      exact lt_trans hlt hk
    have h0k := ih (fun j hj => hbefore j (Nat.lt_succ_of_lt hj)) hki
    obtain ⟨td, hok, hnt⟩ := okAnd_ok (hbefore k (Nat.lt_succ_self k))
    rw [h0k]
    exact pollLoop_step svc ch tid t i h k td hki hok hnt

/-- When every poll inside the timeout window answers successfully with
a non-terminal thread, the loop runs out the window and lands on the
post-loop fetch at index `finalIdx`. -/
lemma pollLoop_exhaust (svc : Service) (ch tid : String) (t i : Int)
    (h : 0 < i) (td : ThreadData) :
    ∀ (N k : Nat), (t - (k : Int) * i).toNat ≤ N →
      (∀ j, k ≤ j → (j : Int) * i < t →
        okAnd (get_thread svc ch tid j) fun td => ¬ terminalState td) →
      get_thread svc ch tid (finalIdx t i h k) = .ok td →
      pollLoop svc ch tid t i h k =
        .ok ⟨td, td.embeddedMessages, td.state.getD "timeout"⟩ := by
  intro N
  induction N with
  | zero =>
    intro k hN hok hfin
    have hkw : ¬ ((k : Int) * i < t) := by
      generalize hX : (k : Int) * i = X at hN ⊢
      omega
    rw [finalIdx_guard_false t i h k hkw] at hfin
    rw [pollLoop_guard_false svc ch tid t i h k hkw, hfin]
  | succ N ih =>
    intro k hN hok hfin
    by_cases hkw : (k : Int) * i < t
    · obtain ⟨tdk, hokk, hntk⟩ := okAnd_ok (hok k (le_refl k) hkw)
      rw [pollLoop_step svc ch tid t i h k tdk hkw hokk hntk]
      rw [finalIdx_guard_true t i h k hkw] at hfin
      refine ih (k + 1) ?_ (fun j hj hjw => hok j (Nat.le_of_succ_le hj) hjw) hfin
      have e : ((k + 1 : Nat) : Int) * i = (k : Int) * i + i := by
        push_cast
        ring
      rw [e]
      generalize hX : (k : Int) * i = X at hN hkw ⊢
      omega
    · rw [finalIdx_guard_false t i h k hkw] at hfin
      rw [pollLoop_guard_false svc ch tid t i h k hkw, hfin]

/-- Success-path characterisation: when the creation call succeeds,
every poll before `k` is successful and non-terminal, and poll `k` is
inside the window, successful and terminal, the whole call returns the
success result built from poll `k`: embedded page when non-empty,
otherwise the dedicated messages call, state defaulting to unknown. -/
lemma send_reach_terminal (svc : Service) (channel_id message : String)
    (timeout interval : Int) (h : 0 < interval) (info : ThreadInfo)
    (k : Nat) (td : ThreadData)
    (hcreate : create_thread svc channel_id message = .ok info)
    (hbefore : ∀ j, j < k →
      okAnd (get_thread svc channel_id info.id j) fun td2 => ¬ terminalState td2)
    (hk : (k : Int) * interval < timeout)
    (hpoll : get_thread svc channel_id info.id k = .ok td)
    (hterm : terminalState td) :
    send_message_and_wait svc channel_id message timeout interval h =
      if td.embeddedMessages.isEmpty then
        Except.map (fun ms => (⟨td, ms, td.state.getD "unknown"⟩ : WaitResult))
          (get_thread_messages svc channel_id info.id)
      else .ok ⟨td, td.embeddedMessages, td.state.getD "unknown"⟩ := by
  unfold send_message_and_wait
  simp only [hcreate]
  rw [pollLoop_reach svc channel_id info.id timeout interval h k hbefore hk]
  rw [pollLoop_guard_true svc channel_id info.id timeout interval h k hk]
  simp only [hpoll, if_pos hterm]
  by_cases hemp : td.embeddedMessages.isEmpty = true
  · rw [if_pos hemp, if_pos hemp]
    cases get_thread_messages svc channel_id info.id <;> rfl
  · rw [if_neg hemp, if_neg hemp]

/-- Timeout-path characterisation: when the creation call succeeds and
every poll inside the window is successful and non-terminal, the call
returns the result built from the single post-loop fetch: its embedded
page and its own state, defaulting to "timeout". -/
lemma send_exhaust (svc : Service) (channel_id message : String)
    (timeout interval : Int) (h : 0 < interval) (info : ThreadInfo)
    (td : ThreadData)
    (hcreate : create_thread svc channel_id message = .ok info)
    (hok : ∀ j : Nat, (j : Int) * interval < timeout →
      okAnd (get_thread svc channel_id info.id j) fun td2 => ¬ terminalState td2)
    (hfin : get_thread svc channel_id info.id (finalIdx timeout interval h 0) = .ok td) :
    send_message_and_wait svc channel_id message timeout interval h =
      .ok ⟨td, td.embeddedMessages, td.state.getD "timeout"⟩ := by
  unfold send_message_and_wait
  simp only [hcreate]
  refine pollLoop_exhaust svc channel_id info.id timeout interval h td timeout.toNat 0 ?_
    (fun j _ hjw => hok j hjw) hfin
  simp

/-- The loop-exit index never overshoots: once the window is entered,
the elapsed time at the exit stays below timeout + interval. -/
lemma finalIdx_bound (t i : Int) (h : 0 < i) :
    ∀ (N k : Nat), (t - (k : Int) * i).toNat ≤ N → (k : Int) * i < t →
      (finalIdx t i h k : Int) * i < t + i := by
  intro N
  induction N with
  | zero =>
    intro k hN hk
    exfalso
    generalize hX : (k : Int) * i = X at hN hk
    omega
  | succ N ih =>
    intro k hN hk
    rw [finalIdx_guard_true t i h k hk]
    by_cases hk1 : ((k + 1 : Nat) : Int) * i < t
    · refine ih (k + 1) ?_ hk1
      have e : ((k + 1 : Nat) : Int) * i = (k : Int) * i + i := by
        push_cast
        ring
      rw [e]
      generalize hX : (k : Int) * i = X at hN hk
      omega
    · rw [finalIdx_guard_false t i h (k + 1) hk1]
      have e : ((k + 1 : Nat) : Int) * i = (k : Int) * i + i := by
        push_cast
        ring
      rw [e]
      generalize hX : (k : Int) * i = X at hk
      omega

/-- For a positive timeout, the total slept time of an exhausted loop,
finalIdx many sleeps of one interval each, is below timeout plus one
interval. -/
lemma finalIdx_elapsed_lt (t i : Int) (h : 0 < i) (ht : 0 < t) :
    (finalIdx t i h 0 : Int) * i < t + i := by
  refine finalIdx_bound t i h t.toNat 0 ?_ ?_
  · simp
  · simpa using ht

/-- With timeout 10 and interval 5 the loop guard passes at elapsed
times 0 and 5 and fails at 10: the loop polls exactly twice and the
post-loop fetch is the third thread fetch, index 2. -/
lemma finalIdx_ten_five : finalIdx 10 5 five_pos 0 = 2 := by
  rw [finalIdx_guard_true 10 5 five_pos 0 (by norm_num)]
  rw [finalIdx_guard_true 10 5 five_pos 1 (by norm_num)]
  exact finalIdx_guard_false 10 5 five_pos 2 (by norm_num)

/-- A message that is not an agent message with collected text parts is
passed over by the extraction scan. -/
lemma extractFirstText_skip (m : Message) (ms : List Message)
    (hm : m.role = some "agent" → message_text_parts m = []) :
    extractFirstText (m :: ms) = extractFirstText ms := by
  by_cases hr : m.role = some "agent"
  · have hemp : (message_text_parts m).isEmpty = true := by
      rw [hm hr]
      rfl
    simp only [extractFirstText]
    rw [if_pos hr, if_pos hemp]
  · simp only [extractFirstText]
    rw [if_neg hr]

/-- The extraction scan returns the newline join of the text parts of
the first agent message that has any. -/
lemma extractFirstText_found (pre : List Message) (m : Message)
    (post : List Message)
    (hpre : ∀ m2 ∈ pre, m2.role = some "agent" → message_text_parts m2 = [])
    (hm : m.role = some "agent") (htp : message_text_parts m ≠ []) :
    extractFirstText (pre ++ m :: post) =
      some (String.intercalate "\n" (message_text_parts m)) := by
  induction pre with
  | nil =>
    rw [List.nil_append]
    have hemp : (message_text_parts m).isEmpty = false := by
      cases hmt : message_text_parts m with
      | nil => exact absurd hmt htp
      | cons a l => rfl
    simp only [extractFirstText]
    rw [if_pos hm]
    simp [hemp]
  | cons m2 rest ih =>
    rw [List.cons_append,
      extractFirstText_skip m2 _ (hpre m2 (List.mem_cons_self m2 rest))]
    exact ih fun x hx h2 => hpre x (List.mem_cons_of_mem m2 hx) h2

/-- When no message is an agent message with a text part, the scan
comes up empty. -/
lemma extractFirstText_none (ms : List Message)
    (h : ∀ m ∈ ms, m.role = some "agent" → message_text_parts m = []) :
    extractFirstText ms = none := by
  induction ms with
  | nil => rfl
  | cons m rest ih =>
    rw [extractFirstText_skip m rest (h m (List.mem_cons_self m rest))]
    exact ih fun x hx hr => h x (List.mem_cons_of_mem m hx) hr

/-- C1: in every polling session, the loop returns a success result at
the first poll whose fetched thread has state "resolved" or "done" or
a message count of at least two; in particular, when already the first
poll reports two messages, the engine returns then instead of waiting
out the timeout. -/
theorem sendWait_returns_at_first_terminal_poll
    (svc : Service) (channel_id message : String) (timeout interval : Int)
    (h : 0 < interval) (info : ThreadInfo) (k : Nat) (td : ThreadData)
    (fallback : List Message)
    (hcreate : create_thread svc channel_id message = .ok info)
    (hbefore : ∀ j, j < k →
      okAnd (get_thread svc channel_id info.id j) fun td2 => ¬ terminalState td2)
    (hk : (k : Int) * interval < timeout)
    (hpoll : get_thread svc channel_id info.id k = .ok td)
    (hterm : td.state.getD "unknown" = "resolved" ∨ td.state.getD "unknown" = "done"
      ∨ 2 ≤ td.messageCount.getD 0)
    (hfb : get_thread_messages svc channel_id info.id = .ok fallback) :
    send_message_and_wait svc channel_id message timeout interval h =
      .ok ⟨td, if td.embeddedMessages.isEmpty then fallback else td.embeddedMessages,
        td.state.getD "unknown"⟩ := by
  rw [send_reach_terminal svc channel_id message timeout interval h info k td
    hcreate hbefore hk hpoll hterm]
  by_cases hemp : td.embeddedMessages.isEmpty = true
  · rw [if_pos hemp, if_pos hemp, hfb]
    rfl
  · rw [if_neg hemp, if_neg hemp]

/-- C1 witness: against a service whose very first poll reports state
"done" and two messages, a session with a 120 timeout returns the
success result at that first poll. -/
theorem sendWait_returns_at_first_terminal_poll_witness :
    send_message_and_wait svcFast "dm-sre" "ping" 120 5 five_pos =
      .ok ⟨tdDone, [msgPing, msgPong], "done"⟩ := by
  have hw := sendWait_returns_at_first_terminal_poll svcFast "dm-sre" "ping" 120 5
    five_pos infoNew 0 tdDone [] rfl (fun j hj => absurd hj (Nat.not_lt_zero j))
    (by norm_num) rfl (by decide) rfl
  exact hw

/-- C2 (amended): when no poll inside the timeout window is terminal,
send_message_and_wait does not raise: it performs one final thread
fetch — and no dedicated messages fetch — and returns the messages
embedded in that final fetch, with the final fetch's own state, the
literal "timeout" serving only as the default for a missing state
field. -/
theorem sendWait_timeout_keeps_last_observed
    (svc : Service) (channel_id message : String) (timeout interval : Int)
    (h : 0 < interval) (info : ThreadInfo) (td : ThreadData)
    (hcreate : create_thread svc channel_id message = .ok info)
    (hok : ∀ j : Nat, (j : Int) * interval < timeout →
      okAnd (get_thread svc channel_id info.id j) fun td2 => ¬ terminalState td2)
    (hfin : get_thread svc channel_id info.id (finalIdx timeout interval h 0) = .ok td) :
    send_message_and_wait svc channel_id message timeout interval h =
      .ok ⟨td, td.embeddedMessages, td.state.getD "timeout"⟩ :=
  send_exhaust svc channel_id message timeout interval h info td hcreate hok hfin

/-- C2 witness: a service stuck at one "investigating" message makes a
session with timeout 7 and interval 3 return, without raising, the
embedded page of the final fetch and the last-observed state. -/
theorem sendWait_timeout_keeps_last_observed_witness :
    send_message_and_wait svcStuck "dm-sre" "ping" 7 3 intervalPos3 =
      .ok ⟨tdInvestigating, [msgPing], "investigating"⟩ := by
  have hw := sendWait_timeout_keeps_last_observed svcStuck "dm-sre" "ping" 7 3
    intervalPos3 infoNew tdInvestigating rfl
    (fun j hj => by
      show okAnd (Except.ok tdInvestigating) fun td2 => ¬ terminalState td2
      decide)
    rfl
  exact hw

/-- C2 counterexample: at timeout 5 against the stuck service the
result carries state "investigating", not "timeout", and the call
succeeds even though this service's dedicated messages-listing
endpoint always fails — so no final messages fetch happens, contrary
to the claim. -/
theorem sendWait_timeout_state_counterexample :
    send_message_and_wait svcStuck "dm-sre" "ping" 5 5 five_pos =
      .ok ⟨tdInvestigating, [msgPing], "investigating"⟩ ∧
    svcStuck.getMessagesResp "dm-sre" "thread-1" = .error .connection ∧
    "investigating" ≠ "timeout" := by
  refine ⟨?_, rfl, by decide⟩
  have hw := send_exhaust svcStuck "dm-sre" "ping" 5 5 five_pos infoNew
    tdInvestigating rfl
    (fun j hj => by
      show okAnd (Except.ok tdInvestigating) fun td2 => ¬ terminalState td2
      decide)
    rfl
  exact hw

/-- C6: on the success path the returned messages come from the
embedded page of the terminal thread fetch when that page is
non-empty, and otherwise from exactly one dedicated messages-listing
call — never from anywhere else. -/
theorem sendWait_success_message_source
    (svc : Service) (channel_id message : String) (timeout interval : Int)
    (h : 0 < interval) (info : ThreadInfo) (k : Nat) (td : ThreadData)
    (hcreate : create_thread svc channel_id message = .ok info)
    (hbefore : ∀ j, j < k →
      okAnd (get_thread svc channel_id info.id j) fun td2 => ¬ terminalState td2)
    (hk : (k : Int) * interval < timeout)
    (hpoll : get_thread svc channel_id info.id k = .ok td)
    (hterm : terminalState td) :
    (td.embeddedMessages.isEmpty = false →
      send_message_and_wait svc channel_id message timeout interval h =
        .ok ⟨td, td.embeddedMessages, td.state.getD "unknown"⟩) ∧
    (td.embeddedMessages.isEmpty = true →
      send_message_and_wait svc channel_id message timeout interval h =
        Except.map (fun ms => (⟨td, ms, td.state.getD "unknown"⟩ : WaitResult))
          (get_thread_messages svc channel_id info.id)) := by
  have hbase := send_reach_terminal svc channel_id message timeout interval h info
    k td hcreate hbefore hk hpoll hterm
  constructor
  · intro hne
    rw [hbase, if_neg (by rw [hne]; exact Bool.false_ne_true)]
  · intro hemp
    rw [hbase, if_pos hemp]

/-- C6 witness: a first poll that is terminal but carries no embedded
page makes the engine fall back to the dedicated messages call, whose
payload becomes the result. -/
theorem sendWait_success_message_source_witness :
    send_message_and_wait svcEmptyPage "dm-sre" "ping" 120 5 five_pos =
      .ok ⟨tdDoneNoPage, [msgPong], "done"⟩ := by
  have hw := sendWait_success_message_source svcEmptyPage "dm-sre" "ping" 120 5
    five_pos infoNew 0 tdDoneNoPage rfl (fun j hj => absurd hj (Nat.not_lt_zero j))
    (by norm_num) rfl (by decide)
  exact hw.2 rfl

/-- C10: for a non-positive timeout the loop body never runs — no poll
and no sleep — yet the engine still creates the thread, performs the
single post-loop thread fetch (fetch index 0), and returns, without
raising, a result whose messages are exactly that fetch's embedded
page. -/
theorem sendWait_nonpositive_timeout
    (svc : Service) (channel_id message : String) (timeout interval : Int)
    (h : 0 < interval) (info : ThreadInfo) (td : ThreadData)
    (ht : timeout ≤ 0)
    (hcreate : create_thread svc channel_id message = .ok info)
    (hfin : get_thread svc channel_id info.id 0 = .ok td) :
    send_message_and_wait svc channel_id message timeout interval h =
      .ok ⟨td, td.embeddedMessages, td.state.getD "timeout"⟩ := by
  unfold send_message_and_wait
  simp only [hcreate]
  have h0 : ¬ (((0 : Nat) : Int) * interval < timeout) := by
    rw [Nat.cast_zero, zero_mul]
    omega
  rw [pollLoop_guard_false svc channel_id info.id timeout interval h 0 h0, hfin]

/-- C10 witness: with timeout 0 the engine returns the embedded page
and state of the single post-loop fetch against the stuck service. -/
theorem sendWait_nonpositive_timeout_witness :
    send_message_and_wait svcStuck "dm-sre" "ping" 0 5 five_pos =
      .ok ⟨tdInvestigating, [msgPing], "investigating"⟩ := by
  have hw := sendWait_nonpositive_timeout svcStuck "dm-sre" "ping" 0 5 five_pos
    infoNew tdInvestigating (le_refl 0) rfl rfl
  exact hw

/-- C4: with a never-terminal service the call returns the timeout
result of the post-loop fetch at index finalIdx, after finalIdx loop
polls; the total slept time — finalIdx sleeps of one interval each —
stays below timeout + interval; and with timeout 10 and interval 5 the
loop polls exactly twice (elapsed 5 and 10), the post-loop fetch being
the thread fetch at index 2. -/
theorem sendWait_poll_count_bound :
    (∀ (svc : Service) (channel_id message : String) (timeout interval : Int)
      (h : 0 < interval) (info : ThreadInfo) (td : ThreadData),
      interval ≤ timeout →
      create_thread svc channel_id message = .ok info →
      (∀ j : Nat, (j : Int) * interval < timeout →
        okAnd (get_thread svc channel_id info.id j) fun td2 => ¬ terminalState td2) →
      get_thread svc channel_id info.id (finalIdx timeout interval h 0) = .ok td →
      send_message_and_wait svc channel_id message timeout interval h =
        .ok ⟨td, td.embeddedMessages, td.state.getD "timeout"⟩ ∧
      (finalIdx timeout interval h 0 : Int) * interval < timeout + interval) ∧
    finalIdx 10 5 five_pos 0 = 2 := by
  constructor
  · intro svc channel_id message timeout interval h info td hti hcreate hok hfin
    refine ⟨send_exhaust svc channel_id message timeout interval h info td
      hcreate hok hfin, ?_⟩
    exact finalIdx_elapsed_lt timeout interval h (lt_of_lt_of_le h hti)
  · exact finalIdx_ten_five

/-- C4 witness: timeout 10, interval 5, stuck service — two loop polls,
result returned from the fetch at index 2, elapsed bound satisfied. -/
theorem sendWait_poll_count_bound_witness :
    send_message_and_wait svcStuck "dm-sre" "ping" 10 5 five_pos =
      .ok ⟨tdInvestigating, [msgPing], "investigating"⟩ ∧
    finalIdx 10 5 five_pos 0 = 2 ∧
    (finalIdx 10 5 five_pos 0 : Int) * 5 < 10 + 5 := by
  obtain ⟨hgen, hten⟩ := sendWait_poll_count_bound
  have hw := hgen svcStuck "dm-sre" "ping" 10 5 five_pos infoNew tdInvestigating
    (by norm_num) rfl
    (fun j hj => by
      show okAnd (Except.ok tdInvestigating) fun td2 => ¬ terminalState td2
      decide)
    rfl
  exact ⟨hw.1, hten, hw.2⟩

/-- C5 (amended): faults on the calls the client checks with
raise_for_status propagate unmodified — a 4xx or 5xx response to a
thread-fetch poll becomes an httpStatus fault, and a failing poll
inside send_message_and_wait aborts the whole wait with exactly that
fault, no reply synthesized.  delete_agent and mark_thread_read,
however, never call raise_for_status: a non-2xx response there is
swallowed, yielding ok false, resp. ok unit, instead of a fault. -/
theorem fault_propagation_amended :
    (∀ (svc : Service) (channel_id thread_id : String) (n : Nat)
      (r : HttpResponse ThreadData), 400 ≤ r.status → r.status < 600 →
      svc.getThreadResp channel_id thread_id n = .ok r →
      get_thread svc channel_id thread_id n = .error (.httpStatus r.status)) ∧
    (∀ (svc : Service) (channel_id message : String) (timeout interval : Int)
      (h : 0 < interval) (info : ThreadInfo) (k : Nat) (e : Fault),
      create_thread svc channel_id message = .ok info →
      (∀ j, j < k →
        okAnd (get_thread svc channel_id info.id j) fun td2 => ¬ terminalState td2) →
      (k : Int) * interval < timeout →
      get_thread svc channel_id info.id k = .error e →
      send_message_and_wait svc channel_id message timeout interval h = .error e) ∧
    (∀ r : HttpResponse Unit, 400 ≤ r.status →
      delete_agent (.ok r) = .ok false ∧ mark_thread_read (.ok r) = .ok ()) := by
  refine ⟨?_, ?_, ?_⟩
  · intro svc channel_id thread_id n r h4 h6 hresp
    unfold get_thread
    simp only [hresp]
    unfold raise_for_status
    rw [if_pos ⟨h4, h6⟩]
  · intro svc channel_id message timeout interval h info k e hcreate hbefore hk herr
    unfold send_message_and_wait
    simp only [hcreate]
    rw [pollLoop_reach svc channel_id info.id timeout interval h k hbefore hk]
    rw [pollLoop_guard_true svc channel_id info.id timeout interval h k hk]
    simp only [herr]
  · intro r h4
    have h200 : ¬ (r.status = 200) := by omega
    have h204 : ¬ (r.status = 204) := by omega
    have hb : (r.status == 200 || r.status == 204) = false := by
      simp [h200, h204]
    constructor
    · show Except.ok (r.status == 200 || r.status == 204) = Except.ok false
      rw [hb]
    · rfl

/-- C5 witness: a connection failure at the first poll aborts the wait
with that very fault, and a DELETE answered 404 comes back as ok
false. -/
theorem fault_propagation_amended_witness :
    send_message_and_wait svcPollFail "dm-sre" "ping" 120 5 five_pos =
      .error .connection ∧
    delete_agent (.ok ⟨404, ()⟩) = .ok false := by
  obtain ⟨h1, h2, h3⟩ := fault_propagation_amended
  exact ⟨h2 svcPollFail "dm-sre" "ping" 120 5 five_pos infoNew 0 .connection rfl
    (fun j hj => absurd hj (Nat.not_lt_zero j)) (by norm_num) rfl,
    (h3 ⟨404, ()⟩ (by norm_num)).1⟩

/-- C5 counterexample: a DELETE and a mark-read POST answered with HTTP
500 do not propagate as faults to the caller — delete_agent returns ok
false and mark_thread_read returns ok unit, swallowing the non-2xx
status. -/
theorem delete_agent_swallows_counterexample :
    delete_agent (.ok ⟨500, ()⟩) = .ok false ∧
    mark_thread_read (.ok ⟨500, ()⟩) = .ok () :=
  ⟨rfl, rfl⟩

/-- C3: the extraction step scans the result's messages in order; the
first message whose role is "agent" and that has at least one part of
type "text" yields the concatenation of all its text-typed parts, in
part order, joined by a newline; parts of other types (tool invocation
or tool result) are ignored, and an agent message with no text part is
passed over without raising. -/
theorem chat_extracts_first_agent_text
    (thread : ThreadData) (finalState : String) (pre post : List Message)
    (m : Message)
    (hpre : ∀ m2 ∈ pre, m2.role = some "agent" → message_text_parts m2 = [])
    (hm : m.role = some "agent") (htp : message_text_parts m ≠ []) :
    extract_text ⟨thread, pre ++ m :: post, finalState⟩ =
      String.intercalate "\n" (message_text_parts m) := by
  unfold extract_text
  rw [extractFirstText_found pre m post hpre hm htp]

/-- C3 witness: after a user message and an agent message holding only
a tool invocation, an agent message with text parts "pong" and "ok"
around a tool result yields exactly the two text parts joined by a
newline. -/
theorem chat_extracts_first_agent_text_witness :
    extract_text ⟨tdDone, [msgPing, msgToolOnly, msgMixed, msgPong], "done"⟩ =
      "pong\nok" := by
  have hw := chat_extracts_first_agent_text tdDone "done" [msgPing, msgToolOnly]
    [msgPong] msgMixed (by decide) rfl (by decide)
  exact hw.trans (by decide)

/-- C7: when the round-trip result contains no agent-authored message
with a text part, the extraction step returns — rather than raises —
the sentinel string embedding the round trip's final state. -/
theorem chat_sentinel_on_no_reply (result : WaitResult)
    (hnone : ∀ m ∈ result.messages,
      m.role = some "agent" → message_text_parts m = []) :
    extract_text result = "[No response yet - state: " ++ result.rstate ++ "]" := by
  unfold extract_text
  rw [extractFirstText_none result.messages hnone]

/-- C7 witness: a result holding only the user message and a tool-only
agent message extracts to the sentinel carrying state
"investigating". -/
theorem chat_sentinel_on_no_reply_witness :
    extract_text ⟨tdInvestigating, [msgPing, msgToolOnly], "investigating"⟩ =
      "[No response yet - state: investigating]" := by
  have hw := chat_sentinel_on_no_reply
    ⟨tdInvestigating, [msgPing, msgToolOnly], "investigating"⟩ (by decide)
  rw [hw]
  decide

/-- C8: the extraction step is deterministic and does not mutate the
round-trip result: its state-passing form hands the result dict back
unchanged, and applying the step again to that returned dict yields
the same string. -/
theorem extract_step_idempotent (result : WaitResult) :
    (extract_step result).2 = result ∧
    (extract_step (extract_step result).2).1 = (extract_step result).1 :=
  ⟨rfl, rfl⟩

/-- C9: chat derives the destination channel by concatenating the
fixed string "dm-" with the agent identifier and passes it unchanged
to send_message_and_wait, alongside the default poll interval 5. -/
theorem chat_channel_naming (svc : Service) (agent_id message : String)
    (timeout : Int) :
    chat svc agent_id message timeout =
      (send_message_and_wait svc ("dm-" ++ agent_id) message timeout 5
        five_pos).map extract_text :=
  rfl
